import Mathlib

/-!
# Verification of the pulse dashboard data-processing core (`data/data.py`)

This file gives a shallow embedding, in Lean 4, of the classification and
aggregation engine of the repository: the per-domain HTTPS/TLS and analytics
classifiers (`https_row_for`, `analytics_row_for`), the eligibility predicates
(`evaluating_for_https`, `evaluating_for_analytics`), the per-agency rollup
loop of `process_domains`, the two-bucket summarizer `process_stats`, the
`percent` helper, the loader's join/attachment rules for `tls.csv` and
`analytics.csv` rows, and `branch_for`.

Modelling conventions:
* CSV-sourced fields are `String`s, exactly as in the Python dicts
  (booleans are the literal strings "True"/"False").
* Python code that can raise is embedded in `Except String`; the error string
  names the Python exception that the corresponding line raises
  (Python 3 semantics: `int(s)` on a non-parseable string raises `ValueError`;
  `None < n` raises `TypeError`; a missing dict key raises `KeyError`;
  `x / 0` raises `ZeroDivisionError`).
* Python 3 `round` is round-half-to-even on binary64 floats; we embed it as
  round-half-to-even on exact rationals, which agrees with the float
  computation on every input exercised here (the tie cases used below,
  e.g. 100*1/8 = 12.5, are exactly representable in binary64).
-/

/-- One row of `inspect.csv` joined onto a domain (only the fields the core
reads). All values are raw strings from the CSV. -/
structure InspectRow where
  canonical : String
  live : String
  redirect : String
  downgradesHttps : String
  validHttps : String
  httpsBadChain : String
  strictlyForcesHttps : String
  defaultsToHttps : String
  hsts : String
  hstsPreloadReady : String
  hstsAllSubdomains : String
  hstsMaxAge : String
deriving Repr, DecidableEq

/-- One row of `tls.csv` joined onto a domain (only the fields the core reads). -/
structure TlsRow where
  grade : String
  forwardSecrecy : String
  signatureAlgorithm : String
  rc4 : String
  sslv3 : String
  tlsv12 : String
deriving Repr, DecidableEq

/-- One row of `analytics.csv` joined onto a domain. -/
structure AnalyticsRow where
  participates : String
deriving Repr, DecidableEq

/-- The per-domain record held in `domain_data`: branch and agency from
`domains.csv`, plus the three optional joined scan records. -/
structure DomainData where
  branch : String
  agency : String
  inspect : Option InspectRow := none
  tls : Option TlsRow := none
  analytics : Option AnalyticsRow := none
deriving Repr, DecidableEq

/-- Digits-only string to `Nat` (`none` if empty or any non-digit). -/
def digitsToNat (cs : List Char) : Option Nat :=
  match cs with
  | [] => none
  | _ =>
    cs.foldl
      (fun acc c =>
        match acc with
        | none => none
        | some n => if c.isDigit then some (10 * n + (c.toNat - 48)) else none)
      (some 0)

/-- Python `int(s)` on a string: optional sign followed by digits, else
failure (`ValueError`). Surrounding whitespace / underscore separators are
not modelled; no input in this development uses them. -/
def pyInt (s : String) : Option Int :=
  match s.toList with
  | '-' :: rest => (digitsToNat rest).map (fun n => -(n : Int))
  | '+' :: rest => (digitsToNat rest).map (fun n => (n : Int))
  | cs => (digitsToNat cs).map (fun n => (n : Int))

/-- `data.py` lines 290-298: the HTTPS presence ordinal. -/
def httpsPresence (i : InspectRow) : Int :=
  if i.downgradesHttps = "True" then 0
  else if i.validHttps = "True" then 2
  else if i.httpsBadChain = "True" then 1
  else -1

/-- `data.py` lines 306-337: the HTTPS enforcement ordinal (`behavior`),
given the presence ordinal. -/
def httpsBehavior (i : InspectRow) (https : Int) : Int :=
  if https ≤ 0 then 0
  else if i.strictlyForcesHttps = "True" ∧
      (i.defaultsToHttps = "True" ∨ i.redirect = "True") then 3
  else if i.strictlyForcesHttps = "False" ∧ i.defaultsToHttps = "True" then 2
  else 1

/-- `data.py` lines 345-348: `hsts_age = int(inspect["HSTS Max Age"]) if
truthy else None`. A non-empty, non-parseable string raises `ValueError`. -/
def hstsAgeFor (i : InspectRow) : Except String (Option Int) :=
  if i.hstsMaxAge ≠ "" then
    match pyInt i.hstsMaxAge with
    | some n => .ok (some n)
    | none => .error "ValueError"
  else .ok none

/-- `data.py` lines 350-388: the HSTS completeness ordinal. When the ladder
reaches the numeric comparison `hsts_age < 10886400` with `hsts_age = None`,
Python 3 raises `TypeError`. -/
def hstsScore (i : InspectRow) (https : Int) (age : Option Int) :
    Except String Int :=
  if https ≤ 0 then .ok (-1)
  else if i.hsts = "False" then .ok 0
  else if i.hstsPreloadReady = "True" then .ok 3
  else
    match age with
    | none => .error "TypeError"
    | some a =>
      if a < 10886400 then .ok 0
      else if i.hstsAllSubdomains = "True" then .ok 2
      else .ok 1

/-- `data.py` lines 415-423: the SSL Labs grade dictionary; an unknown
letter raises `KeyError`. -/
def gradeFor (g : String) : Except String Int :=
  if g = "F" then .ok 0
  else if g = "T" then .ok 1
  else if g = "C" then .ok 2
  else if g = "B" then .ok 3
  else if g = "A-" then .ok 4
  else if g = "A" then .ok 5
  else if g = "A+" then .ok 6
  else .error "KeyError"

/-- `data.py` lines 547-551: `boolean_for` — everything except the literal
string "False" is `True`. -/
def boolean_for (s : String) : Bool :=
  if s = "False" then false else true

/-- `data.py` lines 503-509: `boolean_nice` — tri-state from a
boolean-string. -/
def boolean_nice (v : String) : Int :=
  if v = "True" then 1 else if v = "False" then 0 else -1

/-- `data.py` lines 397-434: the TLS-grade section of `https_row_for`:
grade ordinal plus the five raw TLS attributes, all `none` when the grade is
N/A. Returns `(grade, fs, sig, rc4, ssl3, tls12)`. -/
def tlsPart (https : Int) (tlsOpt : Option TlsRow) :
    Except String (Int × Option Int × Option String × Option Bool × Option Bool × Option Bool) :=
  if https ≤ 0 then .ok (-1, none, none, none, none, none)
  else
    match tlsOpt with
    | none => .ok (-1, none, none, none, none, none)
    | some t =>
      match gradeFor t.grade with
      | .error e => .error e
      | .ok g =>
        match pyInt t.forwardSecrecy with
        | none => .error "ValueError"
        | some f =>
          .ok (g, some f, some t.signatureAlgorithm, some (boolean_for t.rc4),
               some (boolean_for t.sslv3), some (boolean_for t.tlsv12))

/-- The classified HTTPS/TLS row (`data.py` `https_row_for`'s `row` dict,
with the `LABELS` keys as fields). -/
structure HttpsRow where
  domain : String
  canonical : String
  agency : String
  https : Int
  httpsForced : Int
  hsts : Int
  hstsAge : Option Int
  grade : Int
  fs : Option Int
  sig : Option String
  rc4 : Option Bool
  ssl3 : Option Bool
  tls12 : Option Bool
deriving Repr, DecidableEq

/-- `data.py` lines 278-443: `https_row_for(domain)`. The crash points are
embedded in source order: missing `inspect` (`KeyError`), the max-age parse
(`ValueError`), the `None < int` comparison in the HSTS ladder (`TypeError`),
the grade dictionary lookup (`KeyError`), the forward-secrecy parse
(`ValueError`). -/
def https_row_for (domain : String) (d : DomainData) : Except String HttpsRow :=
  match d.inspect with
  | none => .error "KeyError"
  | some i =>
    match hstsAgeFor i with
    | .error e => .error e
    | .ok age =>
      match hstsScore i (httpsPresence i) age with
      | .error e => .error e
      | .ok h =>
        match tlsPart (httpsPresence i) d.tls with
        | .error e => .error e
        | .ok (g, f, sg, r4, s3, t12) =>
          .ok { domain := domain, canonical := i.canonical, agency := d.agency,
                https := httpsPresence i,
                httpsForced := httpsBehavior i (httpsPresence i), hsts := h,
                hstsAge := age, grade := g, fs := f, sig := sg, rc4 := r4,
                ssl3 := s3, tls12 := t12 }

/-- The classified analytics row (`data.py` `analytics_row_for`). -/
structure AnalyticsOutRow where
  domain : String
  canonical : String
  agency : String
  dap : Int
deriving Repr, DecidableEq

/-- `data.py` lines 446-459: `analytics_row_for(domain)`; missing sub-records
raise `KeyError`. -/
def analytics_row_for (domain : String) (d : DomainData) :
    Except String AnalyticsOutRow :=
  match d.analytics, d.inspect with
  | some a, some i =>
    .ok { domain := domain, canonical := i.canonical, agency := d.agency,
          dap := boolean_nice a.participates }
  | _, _ => .error "KeyError"

/-- `data.py` lines 262-266: HTTPS-track eligibility. -/
def evaluating_for_https (d : DomainData) : Bool :=
  match d.inspect with
  | some i => i.live == "True"
  | none => false

/-- `data.py` lines 268-276: analytics-track eligibility. -/
def evaluating_for_analytics (d : DomainData) : Bool :=
  match d.inspect, d.analytics with
  | some i, some _ =>
    (i.live == "True") && (i.redirect == "False") && (d.branch == "executive")
  | _, _ => false

/-- Python 3 `round` on the exact value: round to nearest, ties to even. -/
def roundHalfEven (q : ℚ) : ℤ :=
  if q - ⌊q⌋ < 1 / 2 then ⌊q⌋
  else if q - ⌊q⌋ > 1 / 2 then ⌊q⌋ + 1
  else if ⌊q⌋ % 2 = 0 then ⌊q⌋ else ⌊q⌋ + 1

/-- `data.py` lines 500-501: `percent(num, denom) = round(num / denom * 100)`.
In Python, `denom = 0` raises `ZeroDivisionError`; every use of `percent` in
this development carries a `0 < denom` side condition, and the Lean value at
`denom = 0` is never relied upon. -/
def percent (num denom : ℕ) : ℤ :=
  roundHalfEven ((num : ℚ) / (denom : ℚ) * 100)

/-- `data.py` lines 189-194: pass 1 of `process_domains`, restricted to the
HTTPS track — the classified rows of the eligible domains, in order. The
first classification crash aborts the run. -/
def eligibleHttpsRows : List (String × DomainData) → Except String (List HttpsRow)
  | [] => .ok []
  | (dom, d) :: rest =>
    if evaluating_for_https d then
      match https_row_for dom d with
      | .error e => .error e
      | .ok row =>
        match eligibleHttpsRows rest with
        | .error e => .error e
        | .ok rows => .ok (row :: rows)
    else eligibleHttpsRows rest

/-- Pass 1 of `process_domains` for the analytics track. -/
def eligibleAnalyticsRows :
    List (String × DomainData) → Except String (List AnalyticsOutRow)
  | [] => .ok []
  | (dom, d) :: rest =>
    if evaluating_for_analytics d then
      match analytics_row_for dom d with
      | .error e => .error e
      | .ok row =>
        match eligibleAnalyticsRows rest with
        | .error e => .error e
        | .ok rows => .ok (row :: rows)
    else eligibleAnalyticsRows rest

/-- `data.py` lines 212-233: the per-agency accumulation loop of
`process_domains`, HTTPS side. For the agency's member-domain occurrences
(the raw, non-deduplicated `agency_data[agency]` list, paired here with
each domain's `domain_data` record) it returns
`(https_total, https, https_forced, hsts, grade)` — the eligible-occurrence
total and the four counters. -/
def agencyHttpsPass :
    List (String × DomainData) → Except String (ℕ × ℕ × ℕ × ℕ × ℕ)
  | [] => .ok (0, 0, 0, 0, 0)
  | (dom, d) :: rest =>
    if evaluating_for_https d then
      match https_row_for dom d with
      | .error e => .error e
      | .ok row =>
        match agencyHttpsPass rest with
        | .error e => .error e
        | .ok (t, n1, n2, n3, n4) =>
          .ok (t + 1,
               n1 + (if 1 ≤ row.https then 1 else 0),
               n2 + (if 2 ≤ row.httpsForced then 1 else 0),
               n3 + (if 1 ≤ row.hsts then 1 else 0),
               n4 + (if 4 ≤ row.grade then 1 else 0))
    else agencyHttpsPass rest

/-- `data.py` lines 235-242: the per-agency accumulation loop, analytics
side: `(analytics_total, dap_count)`. -/
def agencyAnalyticsPass :
    List (String × DomainData) → Except String (ℕ × ℕ)
  | [] => .ok (0, 0)
  | (dom, d) :: rest =>
    if evaluating_for_analytics d then
      match analytics_row_for dom d with
      | .error e => .error e
      | .ok row =>
        match agencyAnalyticsPass rest with
        | .error e => .error e
        | .ok (t, n) => .ok (t + 1, n + (if 1 ≤ row.dap then 1 else 0))
    else agencyAnalyticsPass rest

/-- One emitted HTTPS agency rollup row (`data.py` lines 245-252). -/
structure HttpsAgencyRow where
  agency : String
  numberOfDomains : ℕ
  https : ℤ
  httpsForced : ℤ
  hsts : ℤ
  gradeA : ℤ
deriving Repr, DecidableEq

/-- One emitted analytics agency rollup row (`data.py` lines 255-259). -/
structure AnalyticsAgencyRow where
  agency : String
  numberOfDomains : ℕ
  dap : ℤ
deriving Repr, DecidableEq

/-- `data.py` lines 244-252: the HTTPS rollup row for one agency — emitted
(`some`) exactly when `https_total > 0`. -/
def agencyHttpsRow (agency : String) (members : List (String × DomainData)) :
    Except String (Option HttpsAgencyRow) :=
  match agencyHttpsPass members with
  | .error e => .error e
  | .ok (t, n1, n2, n3, n4) =>
    if 0 < t then
      .ok (some { agency := agency, numberOfDomains := t,
                  https := percent n1 t, httpsForced := percent n2 t,
                  hsts := percent n3 t, gradeA := percent n4 t })
    else .ok none

/-- `data.py` lines 254-259: the analytics rollup row for one agency —
emitted (`some`) exactly when `analytics_total > 0`. -/
def agencyAnalyticsRow (agency : String) (members : List (String × DomainData)) :
    Except String (Option AnalyticsAgencyRow) :=
  match agencyAnalyticsPass members with
  | .error e => .error e
  | .ok (t, n) =>
    if 0 < t then
      .ok (some { agency := agency, numberOfDomains := t, dap := percent n t })
    else .ok none

/-- `data.py` lines 465-475: the `enabled` counter of `process_stats`,
HTTPS side. -/
def countEnabledHttps : List HttpsRow → ℕ
  | [] => 0
  | r :: rest =>
    (if 1 ≤ r.https ∧ 1 ≤ r.httpsForced then 1 else 0) + countEnabledHttps rest

/-- `data.py` lines 486-490: the `enabled` counter of `process_stats`,
analytics side. -/
def countEnabledAnalytics : List AnalyticsOutRow → ℕ
  | [] => 0
  | r :: rest => (if 1 ≤ r.dap then 1 else 0) + countEnabledAnalytics rest

/-- `data.py` lines 465-483: the HTTPS two-bucket summary
`(active, inactive)`. `none` models the `ZeroDivisionError` that
`percent(enabled, 0)` raises on an empty row list. -/
def process_https_stats (rows : List HttpsRow) : Option (ℤ × ℤ) :=
  if rows.length = 0 then none
  else
    let pct := percent (countEnabledHttps rows) rows.length
    some (pct, 100 - pct)

/-- `data.py` lines 485-497: the analytics two-bucket summary. -/
def process_analytics_stats (rows : List AnalyticsOutRow) : Option (ℤ × ℤ) :=
  if rows.length = 0 then none
  else
    let pct := percent (countEnabledAnalytics rows) rows.length
    some (pct, 100 - pct)

/-- `data.py` lines 566-582: `branch_for(agency)`. -/
def branch_for (agency : String) : String :=
  if agency = "Library of Congress" ∨
     agency = "The Legislative Branch (Congress)" ∨
     agency = "Government Printing Office" ∨
     agency = "Congressional Office of Compliance" then "legislative"
  else if agency = "The Judicial Branch (Courts)" then "judicial"
  else if agency = "Non-Federal Agency" then "non-federal"
  else "executive"

/-- `data.py` lines 97-103: the filter of `load_data` — a `domains.csv` row
enters the registry iff its type is "Federal Agency" and its resolved
branch is not "non-federal". -/
def registryFilter (domainType agency : String) : Bool :=
  (domainType == "Federal Agency") && (branch_for agency != "non-federal")

/-- The registry `domain_data`, modelled as an association list keyed by
domain (Python dict keys are unique; lookup returns the first match). -/
def regLookup : List (String × DomainData) → String → Option DomainData
  | [], _ => none
  | (k, v) :: rest, dom => if k = dom then some v else regLookup rest dom

/-- Dict assignment `domain_data[dom] = g(domain_data[dom])`: rewrite the
value stored under the key `dom`, leaving other entries unchanged. -/
def regUpdate (reg : List (String × DomainData)) (dom : String)
    (g : DomainData → DomainData) : List (String × DomainData) :=
  match reg with
  | [] => []
  | (k, v) :: rest =>
    if k = dom then (k, g v) :: regUpdate rest dom g
    else (k, v) :: regUpdate rest dom g

/-- `data.py` lines 141-157: attaching one `tls.csv` row. The only guard is
membership in the registry (`if not domain_data.get(domain): continue`);
there is no `inspect` check, and a later row overwrites an earlier one. -/
def setTls (reg : List (String × DomainData)) (dom : String) (row : TlsRow) :
    List (String × DomainData) :=
  if (regLookup reg dom).isSome then
    regUpdate reg dom (fun d => { d with tls := some row })
  else reg

/-- `data.py` lines 162-182: attaching one `analytics.csv` row. Guarded by
registry membership AND `inspect` presence
(`if not domain_data[domain].get('inspect'): continue`). -/
def setAnalytics (reg : List (String × DomainData)) (dom : String)
    (row : AnalyticsRow) : List (String × DomainData) :=
  match regLookup reg dom with
  | none => reg
  | some d =>
    if d.inspect.isSome then
      regUpdate reg dom (fun d => { d with analytics := some row })
    else reg

/-- `percent` rephrased over integer arithmetic (quotient, remainder,
half-to-even tie break); `percent_eq_pctNat` below proves it equal to
`percent` for positive denominators, giving a kernel-computable form. -/
def pctNat (num denom : ℕ) : ℤ :=
  if 2 * (100 * num % denom) < denom then ((100 * num / denom : ℕ) : ℤ)
  else if denom < 2 * (100 * num % denom) then ((100 * num / denom : ℕ) : ℤ) + 1
  else if (100 * num / denom) % 2 = 0 then ((100 * num / denom : ℕ) : ℤ)
  else ((100 * num / denom : ℕ) : ℤ) + 1

/-- Specification-side count: how many member occurrences are eligible for
the HTTPS track. -/
def httpsEligibleCount (ms : List (String × DomainData)) : ℕ :=
  (ms.filter (fun p => evaluating_for_https p.2)).length

/-- Specification-side count: how many member occurrences are eligible for
the analytics track. -/
def analyticsEligibleCount (ms : List (String × DomainData)) : ℕ :=
  (ms.filter (fun p => evaluating_for_analytics p.2)).length

/-! ### Concrete records used by the witnesses and counterexamples -/

/-- Scenario C of the spec: valid HTTPS, HSTS on, not preload-ready,
max-age 10000000 (below the 18-week line). -/
def iC1 : InspectRow :=
  { canonical := "www.c1.gov", live := "True", redirect := "False",
    downgradesHttps := "False", validHttps := "True", httpsBadChain := "False",
    strictlyForcesHttps := "True", defaultsToHttps := "True", hsts := "True",
    hstsPreloadReady := "False", hstsAllSubdomains := "False",
    hstsMaxAge := "10000000" }

def dC1 : DomainData :=
  { branch := "executive", agency := "Agency One", inspect := some iC1 }

/-- The classified row for `dC1` (no TLS scan, so grade is N/A). -/
def rowC1 : HttpsRow :=
  { domain := "c1.gov", canonical := "www.c1.gov", agency := "Agency One",
    https := 2, httpsForced := 3, hsts := 0, hstsAge := some 10000000,
    grade := -1, fs := none, sig := none, rc4 := none, ssl3 := none,
    tls12 := none }

/-- Valid HTTPS, `HSTS = "True"`, not preload-ready, empty max-age: the
ladder reaches `hsts_age < 10886400` with `hsts_age = None`. -/
def iC2empty : InspectRow :=
  { canonical := "www.c2.gov", live := "True", redirect := "False",
    downgradesHttps := "False", validHttps := "True", httpsBadChain := "False",
    strictlyForcesHttps := "True", defaultsToHttps := "True", hsts := "True",
    hstsPreloadReady := "False", hstsAllSubdomains := "False",
    hstsMaxAge := "" }

def dC2empty : DomainData :=
  { branch := "executive", agency := "Agency Two", inspect := some iC2empty }

/-- Same as `iC2empty` but with a non-empty, non-integer-parseable max-age. -/
def iC2alpha : InspectRow :=
  { iC2empty with canonical := "www.c2b.gov", hstsMaxAge := "never" }

def dC2alpha : DomainData :=
  { branch := "executive", agency := "Agency Two", inspect := some iC2alpha }

def iC3 : InspectRow :=
  { canonical := "www.c3.gov", live := "True", redirect := "False",
    downgradesHttps := "False", validHttps := "True", httpsBadChain := "False",
    strictlyForcesHttps := "True", defaultsToHttps := "True", hsts := "True",
    hstsPreloadReady := "True", hstsAllSubdomains := "True",
    hstsMaxAge := "31536000" }

def tC3 : TlsRow :=
  { grade := "A+", forwardSecrecy := "2",
    signatureAlgorithm := "SHA256withRSA", rc4 := "False", sslv3 := "False",
    tlsv12 := "True" }

def dC3 : DomainData :=
  { branch := "executive", agency := "Agency Three", inspect := some iC3,
    tls := some tC3 }

/-- The classified row for `dC3`. -/
def rowC3 : HttpsRow :=
  { domain := "c3.gov", canonical := "www.c3.gov", agency := "Agency Three",
    https := 2, httpsForced := 3, hsts := 3, hstsAge := some 31536000,
    grade := 6, fs := some 2, sig := some "SHA256withRSA", rc4 := some false,
    ssl3 := some false, tls12 := some true }

/-- A strongly-configured domain for the agency-rollup witness. -/
def iC5 : InspectRow :=
  { canonical := "www.a5.gov", live := "True", redirect := "False",
    downgradesHttps := "False", validHttps := "True", httpsBadChain := "False",
    strictlyForcesHttps := "True", defaultsToHttps := "True", hsts := "True",
    hstsPreloadReady := "True", hstsAllSubdomains := "True",
    hstsMaxAge := "31536000" }

def tC5 : TlsRow :=
  { grade := "A", forwardSecrecy := "2",
    signatureAlgorithm := "SHA256withRSA", rc4 := "False", sslv3 := "False",
    tlsv12 := "True" }

def dC5a : DomainData :=
  { branch := "executive", agency := "Agency Five", inspect := some iC5,
    tls := some tC5, analytics := some { participates := "True" } }

/-- A live domain that downgrades HTTPS (all HTTPS scores floor out). -/
def iC5b : InspectRow :=
  { canonical := "www.b5.gov", live := "True", redirect := "False",
    downgradesHttps := "True", validHttps := "False", httpsBadChain := "False",
    strictlyForcesHttps := "False", defaultsToHttps := "False",
    hsts := "False", hstsPreloadReady := "False", hstsAllSubdomains := "False",
    hstsMaxAge := "" }

def dC5b : DomainData :=
  { branch := "executive", agency := "Agency Five", inspect := some iC5b,
    analytics := some { participates := "False" } }

def msC5 : List (String × DomainData) := [("a5.gov", dC5a), ("b5.gov", dC5b)]

/-- The rollup row the HTTPS pass emits for `msC5` (each counter is 1 of 2). -/
def rollupHttpsC5 : HttpsAgencyRow :=
  { agency := "Agency Five", numberOfDomains := 2, https := percent 1 2,
    httpsForced := percent 1 2, hsts := percent 1 2, gradeA := percent 1 2 }

/-- The rollup row the analytics pass emits for `msC5`. -/
def rollupDapC5 : AnalyticsAgencyRow :=
  { agency := "Agency Five", numberOfDomains := 2, dap := percent 1 2 }

def rowC6 : HttpsRow :=
  { domain := "e6.gov", canonical := "www.e6.gov", agency := "Agency Six",
    https := 2, httpsForced := 2, hsts := 1, hstsAge := some 31536000,
    grade := 4, fs := some 2, sig := some "SHA256withRSA", rc4 := some false,
    ssl3 := some false, tls12 := some true }

def dapRowC6 : AnalyticsOutRow :=
  { domain := "e6.gov", canonical := "www.e6.gov", agency := "Agency Six",
    dap := 1 }

/-- A live domain that downgrades HTTPS, carrying a TLS row whose grade "Z"
is not one of the seven recognized letters. -/
def iC8 : InspectRow :=
  { canonical := "www.z8.gov", live := "True", redirect := "False",
    downgradesHttps := "True", validHttps := "False", httpsBadChain := "False",
    strictlyForcesHttps := "False", defaultsToHttps := "False",
    hsts := "False", hstsPreloadReady := "False", hstsAllSubdomains := "False",
    hstsMaxAge := "" }

def tC8 : TlsRow :=
  { grade := "Z", forwardSecrecy := "1", signatureAlgorithm := "SHA1withRSA",
    rc4 := "True", sslv3 := "True", tlsv12 := "False" }

def dC8 : DomainData :=
  { branch := "executive", agency := "Agency Eight", inspect := some iC8,
    tls := some tC8 }

/-- The row `https_row_for` returns for `dC8`: the unrecognized grade is
never consulted because presence is 0. -/
def rowC8 : HttpsRow :=
  { domain := "z8.gov", canonical := "www.z8.gov", agency := "Agency Eight",
    https := 0, httpsForced := 0, hsts := -1, hstsAge := none, grade := -1,
    fs := none, sig := none, rc4 := none, ssl3 := none, tls12 := none }

/-- A domain with working HTTPS and the same unrecognized grade "Z". -/
def iC8live : InspectRow :=
  { canonical := "www.w8.gov", live := "True", redirect := "False",
    downgradesHttps := "False", validHttps := "True", httpsBadChain := "False",
    strictlyForcesHttps := "True", defaultsToHttps := "True", hsts := "False",
    hstsPreloadReady := "False", hstsAllSubdomains := "False",
    hstsMaxAge := "" }

def dC8live : DomainData :=
  { branch := "executive", agency := "Agency Eight", inspect := some iC8live,
    tls := some tC8 }

/-- A registry entry admitted from `domains.csv` that never appeared in
`inspect.csv`. -/
def dReg9 : DomainData := { branch := "executive", agency := "Agency Nine" }

def reg9 : List (String × DomainData) := [("b9.gov", dReg9)]

def tls9 : TlsRow :=
  { grade := "B", forwardSecrecy := "3", signatureAlgorithm := "SHA256withRSA",
    rc4 := "False", sslv3 := "False", tlsv12 := "True" }

def an9 : AnalyticsRow := { participates := "True" }

def iC10 : InspectRow :=
  { canonical := "www.g10.gov", live := "True", redirect := "False",
    downgradesHttps := "False", validHttps := "True", httpsBadChain := "False",
    strictlyForcesHttps := "True", defaultsToHttps := "True", hsts := "True",
    hstsPreloadReady := "True", hstsAllSubdomains := "True",
    hstsMaxAge := "31536000" }

def dC10 : DomainData :=
  { branch := "executive", agency := "General Services Administration",
    inspect := some iC10, analytics := some { participates := "True" } }

/-! ## Helper lemmas -/

lemma percent_eq_pctNat (num denom : ℕ) (hd : 0 < denom) :
    percent num denom = pctNat num denom := by
  have hdQ : (0 : ℚ) < denom := by exact_mod_cast hd
  have hdm : denom * (100 * num / denom) + 100 * num % denom = 100 * num :=
    Nat.div_add_mod _ _
  have hq : (num : ℚ) / denom * 100 = ((100 * num : ℕ) : ℚ) / denom := by
    push_cast; ring
  have hfl : ⌊((100 * num : ℕ) : ℚ) / (denom : ℚ)⌋ =
      ((100 * num / denom : ℕ) : ℤ) := by
    exact_mod_cast Rat.floor_natCast_div_natCast (100 * num) denom
  have key : ((100 * num : ℕ) : ℚ) =
      (denom : ℚ) * ((100 * num / denom : ℕ) : ℚ) +
        ((100 * num % denom : ℕ) : ℚ) := by
    exact_mod_cast hdm.symm
  have hsub : ((100 * num : ℕ) : ℚ) / denom -
      (((100 * num / denom : ℕ) : ℤ) : ℚ) =
      ((100 * num % denom : ℕ) : ℚ) / denom := by
    rw [Int.cast_natCast, key]
    field_simp
  have h1 : (((100 * num % denom : ℕ) : ℚ) / denom < 1 / 2) ↔
      (2 * (100 * num % denom) < denom) := by
    rw [div_lt_iff₀ hdQ]
    constructor
    · intro h
      have h2 : ((2 * (100 * num % denom) : ℕ) : ℚ) < (denom : ℚ) := by
        push_cast; linarith
      exact_mod_cast h2
    · intro h
      have h2 : ((2 * (100 * num % denom) : ℕ) : ℚ) < (denom : ℚ) := by
        exact_mod_cast h
      push_cast at h2; linarith
  have h2 : ((1 : ℚ) / 2 < ((100 * num % denom : ℕ) : ℚ) / denom) ↔
      (denom < 2 * (100 * num % denom)) := by
    rw [lt_div_iff₀ hdQ]
    constructor
    · intro h
      have h3 : ((denom : ℕ) : ℚ) < ((2 * (100 * num % denom) : ℕ) : ℚ) := by
        push_cast; linarith
      exact_mod_cast h3
    · intro h
      have h3 : ((denom : ℕ) : ℚ) < ((2 * (100 * num % denom) : ℕ) : ℚ) := by
        exact_mod_cast h
      push_cast at h3; linarith
  have h3 : (((100 * num / denom : ℕ) : ℤ) % 2 = 0) ↔
      ((100 * num / denom) % 2 = 0) := by
    omega
  unfold percent roundHalfEven pctNat
  rw [hq, hfl, hsub]
  simp only [h1, h2, h3]

lemma roundHalfEven_close (q : ℚ) : |((roundHalfEven q : ℤ) : ℚ) - q| ≤ 1 / 2 := by
  have h0 : ((⌊q⌋ : ℤ) : ℚ) ≤ q := Int.floor_le q
  have h1 : q < ((⌊q⌋ : ℤ) : ℚ) + 1 := Int.lt_floor_add_one q
  unfold roundHalfEven
  split_ifs with hlt hgt hev <;> rw [abs_le] <;> constructor <;> push_cast <;>
    linarith

lemma httpsPresence_cases (i : InspectRow) :
    httpsPresence i = -1 ∨ httpsPresence i = 0 ∨ httpsPresence i = 1 ∨
      httpsPresence i = 2 := by
  unfold httpsPresence; split_ifs <;> simp

lemma httpsBehavior_cases (i : InspectRow) (https : ℤ) :
    httpsBehavior i https = 0 ∨ httpsBehavior i https = 1 ∨
      httpsBehavior i https = 2 ∨ httpsBehavior i https = 3 := by
  unfold httpsBehavior; split_ifs <;> simp

lemma httpsBehavior_na (i : InspectRow) (https : ℤ) (h : https ≤ 0) :
    httpsBehavior i https = 0 := by
  unfold httpsBehavior; rw [if_pos h]

lemma gradeFor_ok_range (g : String) (v : ℤ) (h : gradeFor g = .ok v) :
    0 ≤ v ∧ v ≤ 6 := by
  unfold gradeFor at h
  split_ifs at h <;> injection h with h <;> omega

lemma tlsPart_ok_grade (https : ℤ) (t : Option TlsRow) (g : ℤ)
    (f : Option ℤ) (sg : Option String) (r4 s3 t12 : Option Bool)
    (h : tlsPart https t = .ok (g, f, sg, r4, s3, t12)) :
    -1 ≤ g ∧ g ≤ 6 := by
  unfold tlsPart at h
  split_ifs at h with h1
  · injection h with h
    have h2 : g = -1 := (Prod.mk.injEq ..).mp h.symm |>.1
    omega
  · split at h
    · injection h with h
      have h2 : g = -1 := (Prod.mk.injEq ..).mp h.symm |>.1
      omega
    · rename_i tr
      split at h
      · exact Except.noConfusion h
      · rename_i gv hg
        split at h
        · exact Except.noConfusion h
        · rename_i fv hf
          injection h with h
          have h2 : gv = g := (Prod.mk.injEq ..).mp h |>.1
          have h3 := gradeFor_ok_range tr.grade gv hg
          omega

lemma hstsScore_ok_cases (i : InspectRow) (https : ℤ) (age : Option ℤ)
    (hval : ℤ) (h : hstsScore i https age = .ok hval) :
    (hval = -1 ∨ hval = 0 ∨ hval = 1 ∨ hval = 2 ∨ hval = 3) ∧
      (https ≤ 0 → hval = -1) := by
  cases age with
  | none =>
    simp only [hstsScore] at h
    split_ifs at h with h1 h2 h3 <;> injection h with h <;> omega
  | some a =>
    simp only [hstsScore] at h
    split_ifs at h with h1 h2 h3 h4 h5 <;> injection h with h <;> omega

lemma hstsScore_spec (i : InspectRow) (https : ℤ) (age : Option ℤ) (hval : ℤ)
    (h : hstsScore i https age = .ok hval) :
    (https ≤ 0 → hval = -1) ∧
    (0 < https → i.hsts = "False" → hval = 0) ∧
    (0 < https → i.hsts ≠ "False" → i.hstsPreloadReady = "True" → hval = 3) ∧
    (∀ a : ℤ, 0 < https → i.hsts ≠ "False" → i.hstsPreloadReady ≠ "True" →
      age = some a → a < 10886400 → hval = 0) ∧
    (∀ a : ℤ, 0 < https → i.hsts ≠ "False" → i.hstsPreloadReady ≠ "True" →
      age = some a → 10886400 ≤ a → i.hstsAllSubdomains = "True" → hval = 2) ∧
    (∀ a : ℤ, 0 < https → i.hsts ≠ "False" → i.hstsPreloadReady ≠ "True" →
      age = some a → 10886400 ≤ a → i.hstsAllSubdomains ≠ "True" →
      hval = 1) := by
  cases age with
  | none =>
    simp only [hstsScore] at h
    split_ifs at h with h1 h2 h3 <;> injection h with h <;>
      refine ⟨?_, ?_, ?_, ?_, ?_, ?_⟩ <;> intros <;>
        first | omega | (simp_all; omega) | simp_all
  | some a =>
    simp only [hstsScore] at h
    split_ifs at h with h1 h2 h3 h4 h5 <;> injection h with h <;>
      refine ⟨?_, ?_, ?_, ?_, ?_, ?_⟩ <;> intros <;>
        first | omega | (simp_all; omega) | simp_all

lemma https_row_for_ok (dom : String) (d : DomainData) (row : HttpsRow)
    (h : https_row_for dom d = .ok row) :
    ∃ i, d.inspect = some i ∧
      row.https = httpsPresence i ∧
      row.httpsForced = httpsBehavior i (httpsPresence i) ∧
      hstsAgeFor i = .ok row.hstsAge ∧
      hstsScore i (httpsPresence i) row.hstsAge = .ok row.hsts ∧
      tlsPart (httpsPresence i) d.tls =
        .ok (row.grade, row.fs, row.sig, row.rc4, row.ssl3, row.tls12) := by
  unfold https_row_for at h
  split at h
  · exact Except.noConfusion h
  · rename_i i hins
    split at h
    · exact Except.noConfusion h
    · rename_i age hage
      split at h
      · exact Except.noConfusion h
      · rename_i hv hh
        split at h
        · exact Except.noConfusion h
        · rename_i g f sg r4 s3 t12 ht
          injection h with h
          subst h
          exact ⟨i, hins, rfl, rfl, hage, hh, ht⟩

/-! ## Claim theorems -/

/-- C1: for every domain eligible for the HTTPS track, the HSTS completeness
score follows the ordered ladder of `data.py` lines 350-388: presence ≤ 0
gives -1; else `HSTS = "False"` gives 0; else `HSTS Preload Ready = "True"`
gives 3 (no condition on the max-age); else a parsed max-age below 10886400
gives 0; else `HSTS All Subdomains = "True"` gives 2; else 1. -/
theorem hsts_ladder (dom : String) (d : DomainData) (i : InspectRow)
    (row : HttpsRow) (hi : d.inspect = some i)
    (helig : evaluating_for_https d = true)
    (hok : https_row_for dom d = .ok row) :
    (row.https ≤ 0 → row.hsts = -1) ∧
    (0 < row.https → i.hsts = "False" → row.hsts = 0) ∧
    (0 < row.https → i.hsts ≠ "False" → i.hstsPreloadReady = "True" →
      row.hsts = 3) ∧
    (∀ a : ℤ, 0 < row.https → i.hsts ≠ "False" → i.hstsPreloadReady ≠ "True" →
      row.hstsAge = some a → a < 10886400 → row.hsts = 0) ∧
    (∀ a : ℤ, 0 < row.https → i.hsts ≠ "False" → i.hstsPreloadReady ≠ "True" →
      row.hstsAge = some a → 10886400 ≤ a → i.hstsAllSubdomains = "True" →
      row.hsts = 2) ∧
    (∀ a : ℤ, 0 < row.https → i.hsts ≠ "False" → i.hstsPreloadReady ≠ "True" →
      row.hstsAge = some a → 10886400 ≤ a → i.hstsAllSubdomains ≠ "True" →
      row.hsts = 1) := by
  obtain ⟨i2, hins2, hp, hb, hage, hh, ht⟩ := https_row_for_ok dom d row hok
  rw [hi] at hins2
  injection hins2 with hins2
  subst hins2
  have hs := hstsScore_spec i (httpsPresence i) row.hstsAge row.hsts hh
  rw [hp]
  exact hs

/-- Witness for C1 at Scenario C of the spec: valid HTTPS, `HSTS = "True"`,
not preload-ready, max-age 10000000 (below 18 weeks) scores 0. -/
theorem hsts_ladder_witness : rowC1.hsts = 0 := by
  have h := hsts_ladder "c1.gov" dC1 iC1 rowC1 rfl rfl rfl
  exact h.2.2.2.1 10000000 (by decide) (by decide) (by decide) rfl (by decide)

/-- C2 (code bug): with `HSTS = "True"` and a non-integer-parseable
`HSTS Max Age`, `https_row_for` crashes instead of treating the value as
absent: the empty string reaches `hsts_age < 10886400` with
`hsts_age = None` (a `TypeError` in Python 3), and a non-empty
non-parseable string makes `int(...)` raise `ValueError`. -/
theorem hsts_malformed_age_crashes :
    https_row_for "c2.gov" dC2empty = .error "TypeError" ∧
    https_row_for "c2b.gov" dC2alpha = .error "ValueError" :=
  ⟨rfl, rfl⟩

/-- C3: every classified HTTPS row has presence in {-1,0,1,2}, enforcement
in {0,1,2,3} (0 whenever presence ≤ 0), HSTS in {-1,0,1,2,3} (-1 whenever
presence ≤ 0), and grade in {-1,0,...,6}. -/
theorem https_row_invariants (dom : String) (d : DomainData) (row : HttpsRow)
    (h : https_row_for dom d = .ok row) :
    (row.https = -1 ∨ row.https = 0 ∨ row.https = 1 ∨ row.https = 2) ∧
    (row.httpsForced = 0 ∨ row.httpsForced = 1 ∨ row.httpsForced = 2 ∨
      row.httpsForced = 3) ∧
    (row.https ≤ 0 → row.httpsForced = 0) ∧
    (row.hsts = -1 ∨ row.hsts = 0 ∨ row.hsts = 1 ∨ row.hsts = 2 ∨
      row.hsts = 3) ∧
    (row.https ≤ 0 → row.hsts = -1) ∧
    (-1 ≤ row.grade ∧ row.grade ≤ 6) := by
  obtain ⟨i, hins, hp, hb, hage, hh, ht⟩ := https_row_for_ok dom d row h
  refine ⟨?_, ?_, ?_, ?_, ?_, ?_⟩
  · rw [hp]; exact httpsPresence_cases i
  · rw [hb]; exact httpsBehavior_cases i (httpsPresence i)
  · intro hle; rw [hb]; exact httpsBehavior_na i _ (hp ▸ hle)
  · exact (hstsScore_ok_cases i _ _ _ hh).1
  · intro hle; exact (hstsScore_ok_cases i _ _ _ hh).2 (hp ▸ hle)
  · exact tlsPart_ok_grade _ _ _ _ _ _ _ _ ht

/-- Witness for C3 at a fully-scored concrete domain. -/
theorem https_row_invariants_witness :
    (rowC3.https = -1 ∨ rowC3.https = 0 ∨ rowC3.https = 1 ∨
      rowC3.https = 2) ∧ (-1 ≤ rowC3.grade ∧ rowC3.grade ≤ 6) := by
  have h := https_row_invariants "c3.gov" dC3 rowC3 rfl
  exact ⟨h.1, h.2.2.2.2.2⟩

/-- C4: the two eligibility predicates are exactly the spec's conjunctions:
HTTPS needs `inspect` present and `Live = "True"`; analytics additionally
needs `analytics` present, `Redirect = "False"`, and an executive branch. -/
theorem eligibility_spec (d : DomainData) :
    (evaluating_for_https d = true ↔
      ∃ i, d.inspect = some i ∧ i.live = "True") ∧
    (evaluating_for_analytics d = true ↔
      ∃ i a, d.inspect = some i ∧ d.analytics = some a ∧ i.live = "True" ∧
        i.redirect = "False" ∧ d.branch = "executive") := by
  constructor
  · cases hins : d.inspect with
    | none => simp [evaluating_for_https, hins]
    | some i => simp [evaluating_for_https, hins]
  · cases hins : d.inspect with
    | none => simp [evaluating_for_analytics, hins]
    | some i =>
      cases han : d.analytics with
      | none => simp [evaluating_for_analytics, hins, han]
      | some a => simp [evaluating_for_analytics, hins, han, and_assoc]

/-- C7 counterexample: `percent` is not round-half-up — Python 3 `round`
breaks the tie 12.5 to even, so `percent(1, 8) = 12`, not 13 as claimed. -/
theorem percent_not_half_up : percent 1 8 = 12 ∧ percent 1 8 ≠ 13 := by
  have h : percent 1 8 = 12 := by
    rw [percent_eq_pctNat 1 8 (by norm_num)]; decide
  exact ⟨h, by rw [h]; decide⟩

/-- C7 (amended): for d > 0, `percent(n, d)` is `n/d*100` rounded to the
nearest whole percent with ties broken half-to-even (never off by more than
1/2), and the boundary cases give percent(1,3) = 33, percent(2,3) = 67, and
percent(1,8) = 12. -/
theorem percent_rounding (n d : ℕ) (hd : 0 < d) :
    |((percent n d : ℤ) : ℚ) - (n : ℚ) / d * 100| ≤ 1 / 2 ∧
    percent 1 3 = 33 ∧ percent 2 3 = 67 ∧ percent 1 8 = 12 := by
  refine ⟨roundHalfEven_close _, ?_, ?_, ?_⟩ <;>
    rw [percent_eq_pctNat _ _ (by norm_num)] <;> decide

theorem percent_rounding_witness :
    (0 < 3) ∧
    |((percent 1 3 : ℤ) : ℚ) - ((1 : ℕ) : ℚ) / ((3 : ℕ) : ℚ) * 100| ≤ 1 / 2 :=
  ⟨by norm_num, (percent_rounding 1 3 (by norm_num)).1⟩

/-- C8 counterexample: a domain whose TLS record carries the unrecognized
grade "Z" but whose HTTPS presence score is ≤ 0 is classified without any
error — the grade dictionary is never consulted and the row carries
grade = -1 — so an unrecognized grade does not always fail the run. -/
theorem unknown_grade_cex :
    https_row_for "z8.gov" dC8 = .ok rowC8 ∧ rowC8.grade = -1 := ⟨rfl, rfl⟩

/-- C8 (amended): for every classified domain with HTTPS presence score > 0
and a TLS record present, a `Grade` outside the seven recognized letters
makes `https_row_for` fail (the `KeyError` of the grade dictionary) rather
than score the domain. -/
theorem unknown_grade_fails (dom : String) (d : DomainData) (i : InspectRow)
    (t : TlsRow) (hi : d.inspect = some i) (ht : d.tls = some t)
    (hpos : 0 < httpsPresence i)
    (hg : t.grade ≠ "F" ∧ t.grade ≠ "T" ∧ t.grade ≠ "C" ∧ t.grade ≠ "B" ∧
      t.grade ≠ "A-" ∧ t.grade ≠ "A" ∧ t.grade ≠ "A+") :
    (https_row_for dom d).isOk = false := by
  cases hok : https_row_for dom d with
  | error e => rfl
  | ok row =>
    exfalso
    obtain ⟨i2, hins2, hp, hb, hage, hh, htp⟩ := https_row_for_ok dom d row hok
    rw [hi] at hins2
    injection hins2 with hins2
    subst hins2
    have hgrade : gradeFor t.grade = .error "KeyError" := by
      obtain ⟨g1, g2, g3, g4, g5, g6, g7⟩ := hg
      unfold gradeFor
      split_ifs <;> first | rfl | tauto
    unfold tlsPart at htp
    split_ifs at htp with hle
    · omega
    · split at htp
      · rename_i htl
        rw [ht] at htl
        exact Option.noConfusion htl
      · rename_i tr htl
        rw [ht] at htl
        injection htl with htl
        subst htl
        split at htp
        · exact Except.noConfusion htp
        · rename_i gv hgv
          rw [hgrade] at hgv
          exact Except.noConfusion hgv

theorem unknown_grade_fails_witness :
    (https_row_for "w8.gov" dC8live).isOk = false :=
  unknown_grade_fails "w8.gov" dC8live iC8live tC8 rfl rfl (by decide)
    (by refine ⟨?_, ?_, ?_, ?_, ?_, ?_, ?_⟩ <;> decide)

/-- C9 counterexample: a `tls.csv` row for a registry domain with no
`inspect` record is NOT dropped — `load_data`'s tls loop checks only
registry membership, so the tls sub-record is attached. -/
theorem tls_attach_cex :
    setTls reg9 "b9.gov" tls9 =
      [("b9.gov", { branch := "executive", agency := "Agency Nine",
                    inspect := none, tls := some tls9,
                    analytics := none })] := by
  decide

lemma regLookup_regUpdate (reg : List (String × DomainData)) (dom : String)
    (g : DomainData → DomainData) :
    regLookup (regUpdate reg dom g) dom = (regLookup reg dom).map g := by
  induction reg with
  | nil => rfl
  | cons p rest ih =>
    obtain ⟨k, v⟩ := p
    by_cases hk : k = dom
    · simp [regUpdate, regLookup, hk]
    · simp [regUpdate, regLookup, hk, ih]

/-- C9 (amended): for a registry domain without an `inspect` record, an
arriving `analytics.csv` row is silently dropped (the registry is
unchanged), while an arriving `tls.csv` row is attached regardless of
`inspect`. -/
theorem attach_requires_inspect (reg : List (String × DomainData))
    (dom : String) (tl : TlsRow) (an : AnalyticsRow) (d : DomainData)
    (hd : regLookup reg dom = some d) (hins : d.inspect = none) :
    regLookup (setTls reg dom tl) dom = some { d with tls := some tl } ∧
    setAnalytics reg dom an = reg := by
  constructor
  · unfold setTls
    rw [if_pos (by rw [hd]; rfl)]
    rw [regLookup_regUpdate, hd]
    rfl
  · simp [setAnalytics, hd, hins]

theorem attach_requires_inspect_witness :
    regLookup (setTls reg9 "b9.gov" tls9) "b9.gov" =
      some { dReg9 with tls := some tls9 } ∧
    setAnalytics reg9 "b9.gov" an9 = reg9 :=
  attach_requires_inspect reg9 "b9.gov" tls9 an9 dReg9 rfl rfl

/-- C10: every agency name outside the four legislative names, the judicial
name and "Non-Federal Agency" resolves to the "executive" branch, hence
passes the non-federal admission filter (given type "Federal Agency") and
satisfies the executive-branch condition of analytics eligibility. -/
theorem branch_default (agency : String)
    (h1 : agency ≠ "Library of Congress")
    (h2 : agency ≠ "The Legislative Branch (Congress)")
    (h3 : agency ≠ "Government Printing Office")
    (h4 : agency ≠ "Congressional Office of Compliance")
    (h5 : agency ≠ "The Judicial Branch (Courts)")
    (h6 : agency ≠ "Non-Federal Agency") :
    branch_for agency = "executive" ∧
    registryFilter "Federal Agency" agency = true ∧
    (∀ (d : DomainData) (i : InspectRow) (a : AnalyticsRow),
      d.branch = branch_for agency → d.inspect = some i →
      d.analytics = some a → i.live = "True" → i.redirect = "False" →
      evaluating_for_analytics d = true) := by
  have hb : branch_for agency = "executive" := by
    unfold branch_for
    split_ifs <;> tauto
  refine ⟨hb, ?_, ?_⟩
  · simp [registryFilter, hb]
  · intro d i a hbr hins han hlive hred
    rw [hb] at hbr
    simp [evaluating_for_analytics, hins, han, hlive, hred, hbr]

theorem branch_default_witness :
    branch_for "General Services Administration" = "executive" ∧
    registryFilter "Federal Agency" "General Services Administration" =
      true ∧
    evaluating_for_analytics dC10 = true := by
  have h := branch_default "General Services Administration" (by decide)
    (by decide) (by decide) (by decide) (by decide) (by decide)
  exact ⟨h.1, h.2.1,
    h.2.2 dC10 iC10 { participates := "True" } rfl rfl rfl rfl rfl⟩

lemma countEnabledHttps_eq (rows : List HttpsRow) :
    countEnabledHttps rows =
      (rows.filter (fun r => decide (1 ≤ r.https ∧ 1 ≤ r.httpsForced))).length := by
  induction rows with
  | nil => rfl
  | cons r rest ih =>
    rw [countEnabledHttps, List.filter_cons]
    by_cases hc : (1 ≤ r.https ∧ 1 ≤ r.httpsForced)
    · simp [hc, ih]; omega
    · simp [hc, ih]

lemma countEnabledAnalytics_eq (rows : List AnalyticsOutRow) :
    countEnabledAnalytics rows =
      (rows.filter (fun r => decide (1 ≤ r.dap))).length := by
  induction rows with
  | nil => rfl
  | cons r rest ih =>
    rw [countEnabledAnalytics, List.filter_cons]
    by_cases hc : (1 ≤ r.dap)
    · simp [hc, ih]; omega
    · simp [hc, ih]

/-- C6: on a non-empty row list the two-bucket summary's "active" value is
percent(rows with presence ≥ 1 and enforcement ≥ 1, total) and "inactive"
is 100 minus it; for analytics, "active" is percent(rows with
participation ≥ 1, total). -/
theorem summary_two_bucket (rows : List HttpsRow)
    (rows2 : List AnalyticsOutRow) (h : rows ≠ []) (h2 : rows2 ≠ []) :
    process_https_stats rows =
      some
        (percent
          (rows.filter (fun r => decide (1 ≤ r.https ∧ 1 ≤ r.httpsForced))).length
          rows.length,
         100 -
          percent
            (rows.filter
              (fun r => decide (1 ≤ r.https ∧ 1 ≤ r.httpsForced))).length
            rows.length) ∧
    process_analytics_stats rows2 =
      some
        (percent (rows2.filter (fun r => decide (1 ≤ r.dap))).length
          rows2.length,
         100 -
          percent (rows2.filter (fun r => decide (1 ≤ r.dap))).length
            rows2.length) := by
  constructor
  · unfold process_https_stats
    rw [if_neg (by simpa using h)]
    simp [countEnabledHttps_eq]
  · unfold process_analytics_stats
    rw [if_neg (by simpa using h2)]
    simp [countEnabledAnalytics_eq]

theorem summary_two_bucket_witness :
    process_https_stats [rowC6] =
      some
        (percent
          ([rowC6].filter
            (fun r => decide (1 ≤ r.https ∧ 1 ≤ r.httpsForced))).length
          [rowC6].length,
         100 -
          percent
            ([rowC6].filter
              (fun r => decide (1 ≤ r.https ∧ 1 ≤ r.httpsForced))).length
            [rowC6].length) :=
  (summary_two_bucket [rowC6] [dapRowC6] (by simp) (by simp)).1

lemma agencyHttpsPass_spec (ms : List (String × DomainData))
    (t n1 n2 n3 n4 : ℕ)
    (h : agencyHttpsPass ms = .ok (t, n1, n2, n3, n4)) :
    ∃ rows, eligibleHttpsRows ms = .ok rows ∧ t = rows.length ∧
      n1 = (rows.filter (fun r => decide (1 ≤ r.https))).length ∧
      n2 = (rows.filter (fun r => decide (2 ≤ r.httpsForced))).length ∧
      n3 = (rows.filter (fun r => decide (1 ≤ r.hsts))).length ∧
      n4 = (rows.filter (fun r => decide (4 ≤ r.grade))).length := by
  induction ms generalizing t n1 n2 n3 n4 with
  | nil =>
    simp only [agencyHttpsPass] at h
    injection h with h
    simp only [Prod.mk.injEq] at h
    obtain ⟨rfl, rfl, rfl, rfl, rfl⟩ := h
    exact ⟨[], rfl, rfl, rfl, rfl, rfl, rfl⟩
  | cons p rest ih =>
    obtain ⟨dom, d⟩ := p
    cases helig : evaluating_for_https d with
    | false =>
      simp only [agencyHttpsPass, helig, Bool.false_eq_true, if_false] at h
      obtain ⟨rows, hrows, ht, hn1, hn2, hn3, hn4⟩ :=
        ih t n1 n2 n3 n4 h
      exact ⟨rows, by simp [eligibleHttpsRows, helig, hrows],
        ht, hn1, hn2, hn3, hn4⟩
    | true =>
      simp only [agencyHttpsPass, helig, if_true] at h
      cases hrow : https_row_for dom d with
      | error e => rw [hrow] at h; exact Except.noConfusion h
      | ok row =>
        rw [hrow] at h
        cases hrest : agencyHttpsPass rest with
        | error e => rw [hrest] at h; exact Except.noConfusion h
        | ok tup =>
          obtain ⟨t0, m1, m2, m3, m4⟩ := tup
          rw [hrest] at h
          injection h with h
          simp only [Prod.mk.injEq] at h
          obtain ⟨rfl, rfl, rfl, rfl, rfl⟩ := h
          obtain ⟨rows, hrows, ht, hn1, hn2, hn3, hn4⟩ :=
            ih t0 m1 m2 m3 m4 hrest
          refine ⟨row :: rows, ?_, ?_, ?_, ?_, ?_, ?_⟩
          · simp [eligibleHttpsRows, helig, hrow, hrows]
          · simp [ht]
          · rw [List.filter_cons]
            by_cases hc : (1 : ℤ) ≤ row.https
            · simp [hc, hn1]
            · simp [hc, hn1]
          · rw [List.filter_cons]
            by_cases hc : (2 : ℤ) ≤ row.httpsForced
            · simp [hc, hn2]
            · simp [hc, hn2]
          · rw [List.filter_cons]
            by_cases hc : (1 : ℤ) ≤ row.hsts
            · simp [hc, hn3]
            · simp [hc, hn3]
          · rw [List.filter_cons]
            by_cases hc : (4 : ℤ) ≤ row.grade
            · simp [hc, hn4]
            · simp [hc, hn4]

lemma eligibleHttpsRows_length (ms : List (String × DomainData))
    (rows : List HttpsRow) (h : eligibleHttpsRows ms = .ok rows) :
    rows.length = httpsEligibleCount ms := by
  induction ms generalizing rows with
  | nil =>
    simp only [eligibleHttpsRows] at h
    injection h with h
    subst h
    rfl
  | cons p rest ih =>
    obtain ⟨dom, d⟩ := p
    cases helig : evaluating_for_https d with
    | false =>
      simp only [eligibleHttpsRows, helig, Bool.false_eq_true, if_false] at h
      simp [httpsEligibleCount, List.filter_cons, helig, ih rows h]
    | true =>
      simp only [eligibleHttpsRows, helig, if_true] at h
      cases hrow : https_row_for dom d with
      | error e => rw [hrow] at h; exact Except.noConfusion h
      | ok row =>
        rw [hrow] at h
        cases hrest : eligibleHttpsRows rest with
        | error e => rw [hrest] at h; exact Except.noConfusion h
        | ok rows0 =>
          rw [hrest] at h
          injection h with h
          subst h
          simp [httpsEligibleCount, List.filter_cons, helig, ih rows0 hrest]

lemma agencyAnalyticsPass_spec (ms : List (String × DomainData)) (t n : ℕ)
    (h : agencyAnalyticsPass ms = .ok (t, n)) :
    ∃ rows, eligibleAnalyticsRows ms = .ok rows ∧ t = rows.length ∧
      n = (rows.filter (fun r => decide (1 ≤ r.dap))).length := by
  induction ms generalizing t n with
  | nil =>
    simp only [agencyAnalyticsPass] at h
    injection h with h
    simp only [Prod.mk.injEq] at h
    obtain ⟨rfl, rfl⟩ := h
    exact ⟨[], rfl, rfl, rfl⟩
  | cons p rest ih =>
    obtain ⟨dom, d⟩ := p
    cases helig : evaluating_for_analytics d with
    | false =>
      simp only [agencyAnalyticsPass, helig, Bool.false_eq_true, if_false] at h
      obtain ⟨rows, hrows, ht, hn⟩ := ih t n h
      exact ⟨rows, by simp [eligibleAnalyticsRows, helig, hrows], ht, hn⟩
    | true =>
      simp only [agencyAnalyticsPass, helig, if_true] at h
      cases hrow : analytics_row_for dom d with
      | error e => rw [hrow] at h; exact Except.noConfusion h
      | ok row =>
        rw [hrow] at h
        cases hrest : agencyAnalyticsPass rest with
        | error e => rw [hrest] at h; exact Except.noConfusion h
        | ok tup =>
          obtain ⟨t0, m⟩ := tup
          rw [hrest] at h
          injection h with h
          simp only [Prod.mk.injEq] at h
          obtain ⟨rfl, rfl⟩ := h
          obtain ⟨rows, hrows, ht, hn⟩ := ih t0 m hrest
          refine ⟨row :: rows, ?_, ?_, ?_⟩
          · simp [eligibleAnalyticsRows, helig, hrow, hrows]
          · simp [ht]
          · rw [List.filter_cons]
            by_cases hc : (1 : ℤ) ≤ row.dap
            · simp [hc, hn]
            · simp [hc, hn]

lemma eligibleAnalyticsRows_length (ms : List (String × DomainData))
    (rows : List AnalyticsOutRow) (h : eligibleAnalyticsRows ms = .ok rows) :
    rows.length = analyticsEligibleCount ms := by
  induction ms generalizing rows with
  | nil =>
    simp only [eligibleAnalyticsRows] at h
    injection h with h
    subst h
    rfl
  | cons p rest ih =>
    obtain ⟨dom, d⟩ := p
    cases helig : evaluating_for_analytics d with
    | false =>
      simp only [eligibleAnalyticsRows, helig, Bool.false_eq_true,
        if_false] at h
      simp [analyticsEligibleCount, List.filter_cons, helig, ih rows h]
    | true =>
      simp only [eligibleAnalyticsRows, helig, if_true] at h
      cases hrow : analytics_row_for dom d with
      | error e => rw [hrow] at h; exact Except.noConfusion h
      | ok row =>
        rw [hrow] at h
        cases hrest : eligibleAnalyticsRows rest with
        | error e => rw [hrest] at h; exact Except.noConfusion h
        | ok rows0 =>
          rw [hrest] at h
          injection h with h
          subst h
          simp [analyticsEligibleCount, List.filter_cons, helig,
            ih rows0 hrest]

/-- C5: a per-agency HTTPS (resp. analytics) rollup row is emitted iff the
agency's HTTPS-eligible (resp. analytics-eligible) member count is > 0, and
its counters are the counts, among the eligible members' classified rows,
of presence ≥ 1, enforcement ≥ 2, HSTS ≥ 1 and grade ≥ 4 (resp.
participation ≥ 1), each reported as percent(counter, eligible total). -/
theorem agency_rollup (ag : String) (ms : List (String × DomainData))
    (res : Option HttpsAgencyRow) (res2 : Option AnalyticsAgencyRow)
    (h1 : agencyHttpsRow ag ms = .ok res)
    (h2 : agencyAnalyticsRow ag ms = .ok res2) :
    (res.isSome ↔ 0 < httpsEligibleCount ms) ∧
    (res2.isSome ↔ 0 < analyticsEligibleCount ms) ∧
    (∀ r, res = some r → ∃ rows, eligibleHttpsRows ms = .ok rows ∧
      r.agency = ag ∧ r.numberOfDomains = httpsEligibleCount ms ∧
      r.numberOfDomains = rows.length ∧
      r.https =
        percent (rows.filter (fun x => decide (1 ≤ x.https))).length
          rows.length ∧
      r.httpsForced =
        percent (rows.filter (fun x => decide (2 ≤ x.httpsForced))).length
          rows.length ∧
      r.hsts =
        percent (rows.filter (fun x => decide (1 ≤ x.hsts))).length
          rows.length ∧
      r.gradeA =
        percent (rows.filter (fun x => decide (4 ≤ x.grade))).length
          rows.length) ∧
    (∀ r, res2 = some r → ∃ rows2, eligibleAnalyticsRows ms = .ok rows2 ∧
      r.agency = ag ∧ r.numberOfDomains = analyticsEligibleCount ms ∧
      r.numberOfDomains = rows2.length ∧
      r.dap =
        percent (rows2.filter (fun x => decide (1 ≤ x.dap))).length
          rows2.length) := by
  unfold agencyHttpsRow at h1
  unfold agencyAnalyticsRow at h2
  split at h1
  · exact Except.noConfusion h1
  · rename_i t n1 n2 n3 n4 hpass
    obtain ⟨rows, hrows, ht, hn1, hn2, hn3, hn4⟩ :=
      agencyHttpsPass_spec ms t n1 n2 n3 n4 hpass
    have hlen := eligibleHttpsRows_length ms rows hrows
    split at h2
    · exact Except.noConfusion h2
    · rename_i u m hpass2
      obtain ⟨rows2, hrows2, hu, hm⟩ :=
        agencyAnalyticsPass_spec ms u m hpass2
      have hlen2 := eligibleAnalyticsRows_length ms rows2 hrows2
      split_ifs at h1 with hpos
      · split_ifs at h2 with hpos2
        · injection h1 with h1
          injection h2 with h2
          subst h1
          subst h2
          refine ⟨by simp; omega, by simp; omega, ?_, ?_⟩
          · intro r hr
            injection hr with hr
            subst hr
            exact ⟨rows, hrows, rfl, by simp [ht, hlen], by simp [ht],
              by rw [hn1, ht], by rw [hn2, ht], by rw [hn3, ht],
              by rw [hn4, ht]⟩
          · intro r hr
            injection hr with hr
            subst hr
            exact ⟨rows2, hrows2, rfl, by simp [hu, hlen2], by simp [hu],
              by rw [hm, hu]⟩
        · injection h1 with h1
          injection h2 with h2
          subst h1
          subst h2
          refine ⟨by simp; omega, by simp; omega, ?_, ?_⟩
          · intro r hr
            injection hr with hr
            subst hr
            exact ⟨rows, hrows, rfl, by simp [ht, hlen], by simp [ht],
              by rw [hn1, ht], by rw [hn2, ht], by rw [hn3, ht],
              by rw [hn4, ht]⟩
          · intro r hr
            exact Option.noConfusion hr
      · split_ifs at h2 with hpos2
        · injection h1 with h1
          injection h2 with h2
          subst h1
          subst h2
          refine ⟨by simp; omega, by simp; omega, ?_, ?_⟩
          · intro r hr
            exact Option.noConfusion hr
          · intro r hr
            injection hr with hr
            subst hr
            exact ⟨rows2, hrows2, rfl, by simp [hu, hlen2], by simp [hu],
              by rw [hm, hu]⟩
        · injection h1 with h1
          injection h2 with h2
          subst h1
          subst h2
          refine ⟨by simp; omega, by simp; omega, ?_, ?_⟩
          · intro r hr
            exact Option.noConfusion hr
          · intro r hr
            exact Option.noConfusion hr

theorem agency_rollup_witness :
    ((some rollupHttpsC5 : Option HttpsAgencyRow).isSome ↔
      0 < httpsEligibleCount msC5) ∧
    ((some rollupDapC5 : Option AnalyticsAgencyRow).isSome ↔
      0 < analyticsEligibleCount msC5) := by
  have h := agency_rollup "Agency Five" msC5 (some rollupHttpsC5)
    (some rollupDapC5) rfl rfl
  exact ⟨h.1, h.2.1⟩
